import Mathlib

/-!
Shallow embedding of `src/main.py`, a single-shot CLI that loads an
environment configuration from `envs.yaml`, renders a Jinja2 template with
the selected environment section, and either prints the result (dry run)
or writes it to `<outdir>/deployment-<env>.yaml`.

External collaborators (the YAML parser, the Jinja2 engine, the POSIX
filesystem) are modelled explicitly: the configuration file is represented
post-parse, templates as alternating text/placeholder pieces, and the
filesystem as finite sets of directory paths and file contents.
-/

namespace ManifestRender

/-- Structured data values as returned by the YAML parser
(Python objects: `None`, booleans, integers, strings, lists, dicts). -/
inductive Yaml where
  | null : Yaml
  | bool : Bool → Yaml
  | int : Int → Yaml
  | str : String → Yaml
  | list : List Yaml → Yaml
  | map : List (String × Yaml) → Yaml
deriving Repr

/-- The parse outcome of the configuration file `envs.yaml`:
either the document is malformed (the parser raises), or it is empty
(`yaml.safe_load` returns `None`), or it parses to a top-level mapping
from environment names to their data. -/
inductive ConfigDoc where
  | malformed : ConfigDoc
  | emptyDoc : ConfigDoc
  | mapping : List (String × Yaml) → ConfigDoc
deriving Repr

/-- Errors that escape the program as uncaught Python exceptions. -/
inductive PyErr where
  | yamlError : PyErr
  | typeError : PyErr
  | osError : PyErr
deriving Repr, DecidableEq

/-- Result of one stage of the pipeline: a normal value, a `sys.exit`
with an exit code, or an uncaught exception. -/
inductive Outcome (α : Type) where
  | ok : α → Outcome α
  | exited : Nat → Outcome α
  | crashed : PyErr → Outcome α
deriving Repr

/-- Result of a whole run: `sys.exit` with a code, or an uncaught
exception (which is not any `sys.exit` code of the program). -/
inductive RunResult where
  | exited : Nat → RunResult
  | crashed : PyErr → RunResult
deriving Repr, DecidableEq

/-- Render a POSIX absolute path from its segments (for diagnostics). -/
def pathStr (segs : List String) : String :=
  "/" ++ String.intercalate "/" segs

/-- A `pathlib.PurePosixPath`: an absolute/relative flag plus segments
(single-dot components are dropped by the constructor, as pathlib does). -/
structure PyPath where
  absolute : Bool
  segs : List String
deriving Repr, DecidableEq

/-- Split a character list at every slash (how `PurePosixPath` segments a
path string); the accumulator holds the current segment reversed. -/
def splitSlash : List Char → List Char → List String
  | [], acc => [String.mk acc.reverse]
  | c :: rest, acc =>
    if c = '/' then String.mk acc.reverse :: splitSlash rest []
    else splitSlash rest (c :: acc)

/-- Parse a path string the way `pathlib.PurePosixPath` does: absolute iff
it starts with a slash; empty and `.` components are dropped. -/
def parsePath (s : String) : PyPath :=
  ⟨decide (s.data.head? = some '/'),
   ((splitSlash s.data []).filter (fun c => c ≠ "")).filter (fun c => c ≠ ".")⟩

/-- `pathlib` join (`p / q`): if `q` is absolute it replaces `p` wholly,
otherwise the segments are concatenated. -/
def joinPath (p q : PyPath) : PyPath :=
  if q.absolute then q else ⟨p.absolute, p.segs ++ q.segs⟩

/-- Normalisation step of `Path.resolve()` on an absolute path: `..` pops
the previous segment (a `..` at the root stays at the root). The
accumulator holds the already-processed segments in reverse. -/
def normAux : List String → List String → List String
  | acc, [] => acc.reverse
  | acc, c :: rest => if c = ".." then normAux (acc.drop 1) rest else normAux (c :: acc) rest

/-- `Path.resolve()` on an already-absolute joined path: normalise `..`. -/
def resolveSegs (p : PyPath) : List String :=
  normAux [] p.segs

/-- The filesystem: which absolute paths are directories, and the file
contents at absolute paths. Paths are segment lists; the root `[]` is
always a directory. -/
structure FSState where
  dirs : List (List String)
  files : List (List String × String)
deriving Repr, DecidableEq

/-- Association-list lookup with decidable key equality (Python `dict`
lookup; first match wins, keys are unique in practice). -/
def alookup {κ α : Type} [DecidableEq κ] : List (κ × α) → κ → Option α
  | [], _ => none
  | (k, v) :: rest, key => if k = key then some v else alookup rest key

/-- Is there a regular file at `p`? -/
def isFile (fs : FSState) (p : List String) : Bool :=
  (alookup fs.files p).isSome

/-- Is there a directory at `p`?  The root always exists. -/
def isDir (fs : FSState) (p : List String) : Bool :=
  decide (p = [] ∨ p ∈ fs.dirs)

/-- All nonempty initial segments of a path, shortest first
(the chain of ancestors `mkdir -p` has to create, ending with the path). -/
def initSegs : List String → List (List String)
  | [] => []
  | c :: rest => [c] :: (initSegs rest).map (fun q => c :: q)

/-- Add each path of `ps` to the directory set if not already present. -/
def addDirs (dirs : List (List String)) (ps : List (List String)) : List (List String) :=
  ps.foldl (fun ds p => if p ∈ ds then ds else ds ++ [p]) dirs

/-- `Path.mkdir(parents=True, exist_ok=True)`: creates every missing
ancestor; raises `OSError` if some ancestor (or the path itself) exists
as a regular file. -/
def mkdirParents (fs : FSState) (p : List String) : Except PyErr FSState :=
  if (initSegs p).any (fun q => isFile fs q) then .error .osError
  else .ok ⟨addDirs fs.dirs (initSegs p), fs.files⟩

/-- Replace the binding of `p` in an association list, or append it. -/
def setAssoc : List (List String × String) → List String → String → List (List String × String)
  | [], p, c => [(p, c)]
  | (q, d) :: rest, p, c => if q = p then (q, c) :: rest else (q, d) :: setAssoc rest p c

/-- `Path.write_text`: truncating write. Raises `OSError` if the path is a
directory or its parent directory does not exist; otherwise the previous
content (if any) is wholly replaced. -/
def write_text (fs : FSState) (p : List String) (content : String) : Except PyErr FSState :=
  if isDir fs p then .error .osError
  else if ¬ isDir fs p.dropLast then .error .osError
  else .ok ⟨fs.dirs, setAssoc fs.files p content⟩

/-- Modelled from the spec: the external Jinja2 engine renders a value into
text with Python `str()`; compound values are abstracted since no template
of this repository interpolates them. -/
def pyStr : Yaml → String
  | .null => "None"
  | .bool true => "True"
  | .bool false => "False"
  | .int n => toString n
  | .str s => s
  | .list _ => "[compound]"
  | .map _ => "\x7bcompound\x7d"

/-- A template piece: literal text or a placeholder that names a context
variable. -/
inductive Piece where
  | text : String → Piece
  | var : String → Piece
deriving Repr, DecidableEq

/-- A parsed template: the sequence of its pieces. -/
def Tmpl := List Piece

/-- Modelled from the spec: the external Jinja2 engine substitutes each
placeholder by the context value under its name (an undefined name renders
as the empty string, Jinja2 default undefined behaviour). -/
def renderTmpl (t : Tmpl) (ctx : List (String × Yaml)) : String :=
  t.foldl (fun acc p =>
    acc ++ match p with
      | .text s => s
      | .var v => match alookup ctx v with
        | some y => pyStr y
        | none => "") ""

/-- All inputs of one run: the parse state of `envs.yaml` (`none` means the
file does not exist), the template directory contents, the absolute
segments of the script directory `BASE_DIR`, and the filesystem. -/
structure World where
  config : Option ConfigDoc
  templates : List (String × Tmpl)
  baseDir : List String
  fs : FSState

/-- The CLI arguments after `argparse` (defaults as declared in
`parse_args`). -/
structure Args where
  env : String
  template : String := "deployment.yaml.j2"
  outdir : String := "build"
  dryRun : Bool := false

/-- The registry obtained from a parsed document by
`yaml.safe_load(f) or \x7b\x7d`: an empty document yields the empty mapping
(the malformed case never reaches this point, the parser raises first). -/
def allEnvsOf : ConfigDoc → List (String × Yaml)
  | .malformed => []
  | .emptyDoc => []
  | .mapping m => m

/-- `load_env_config`: checks that `BASE_DIR/envs.yaml` exists (else prints
a diagnostic and exits 1), parses it (`yaml.safe_load(f) or \x7b\x7d`: an empty
document becomes the empty mapping, a malformed one raises), checks the
requested environment is a key (else prints the diagnostic plus the list
of available environments and exits 2), and returns the section
unvalidated. Returns the stage outcome paired with the printed lines. -/
def load_env_config (env_name : String) (baseDir : List String)
    (config : Option ConfigDoc) : Outcome Yaml × List String :=
  let config_path := pathStr (baseDir ++ ["envs.yaml"])
  match config with
  | none => (.exited 1, ["[ERROR] Config file " ++ config_path ++ " not found."])
  | some .malformed => (.crashed .yamlError, [])
  | some d =>
    let all_envs : List (String × Yaml) := allEnvsOf d
    match alookup all_envs env_name with
    | none =>
      (.exited 2,
        ["[ERROR] Environment \x27" ++ env_name ++ "\x27 not found in " ++ config_path ++ ".",
         "Available envs: " ++ String.intercalate ", " (all_envs.map (fun kv => kv.1))])
    | some sect => (.ok sect, [])

/-- `render_template`: resolves the template name in `BASE_DIR/templates`
(else prints a diagnostic and exits 3), then calls
`template.render(**context)`: the `**` expansion raises `TypeError` when
the context is not a string-keyed mapping; otherwise the engine renders. -/
def render_template (template_name : String) (context : Yaml)
    (templates : List (String × Tmpl)) (baseDir : List String) :
    Outcome String × List String :=
  let templates_dir := pathStr (baseDir ++ ["templates"])
  match alookup templates template_name with
  | none =>
    (.exited 3, ["[ERROR] Template " ++ template_name ++ " not found in " ++ templates_dir])
  | some t =>
    match context with
    | .map m => (.ok (renderTmpl t m), [])
    | _ => (.crashed .typeError, [])

/-- The deterministic output file name `deployment-<env>.yaml`. -/
def outFileName (env_name : String) : String :=
  "deployment-" ++ env_name ++ ".yaml"

/-- `write_build_file`: `mkdir(parents=True, exist_ok=True)` on the output
directory, then a truncating write of the rendered text at
`<outdir>/deployment-<env>.yaml`, then an info line. Filesystem errors
propagate (no handler in the source). -/
def write_build_file (env_name : String) (content : String)
    (outdir : List String) (fs : FSState) :
    Except PyErr (FSState × List String) :=
  match mkdirParents fs outdir with
  | .error e => .error e
  | .ok fs1 =>
    let out_file := outdir ++ [outFileName env_name]
    match write_text fs1 out_file content with
    | .error e => .error e
    | .ok fs2 => .ok (fs2, ["[INFO] Wrote rendered manifest to " ++ pathStr out_file])

/-- The absolute output directory of a run:
`(BASE_DIR / args.outdir).resolve()`. -/
def outdirSegs (baseDir : List String) (outdir : String) : List String :=
  resolveSegs (joinPath ⟨true, baseDir⟩ (parsePath outdir))

/-- `main`: load, render, then either print (dry run) or write; every path
ends in `sys.exit` or in an uncaught exception. Returns the run result,
the full standard output, and the final filesystem. -/
def main (args : Args) (w : World) : RunResult × List String × FSState :=
  match load_env_config args.env w.baseDir w.config with
  | (.exited c, out) => (.exited c, out, w.fs)
  | (.crashed e, out) => (.crashed e, out, w.fs)
  | (.ok env_config, out1) =>
    match render_template args.template env_config w.templates w.baseDir with
    | (.exited c, out2) => (.exited c, out1 ++ out2, w.fs)
    | (.crashed e, out2) => (.crashed e, out1 ++ out2, w.fs)
    | (.ok rendered, out2) =>
      if args.dryRun then
        (.exited 0,
          out1 ++ out2 ++ ["[INFO] Dry run enabled. Rendering to stdout:\n", rendered],
          w.fs)
      else
        let outdir_path := outdirSegs w.baseDir args.outdir
        match write_build_file args.env rendered outdir_path w.fs with
        | .error e => (.crashed e, out1 ++ out2, w.fs)
        | .ok (fs2, out3) =>
          (.exited 0, out1 ++ out2 ++ out3 ++ ["[OK] Render finished."], fs2)

/-- The environment registry of the scenario in the spec:
one environment `dev` with `name: svc-a` and `replicas: 2`. -/
def devEnvs : List (String × Yaml) :=
  [("dev", .map [("name", .str "svc-a"), ("replicas", .int 2)])]

/-- The template directory holding the default template with the body
`replicas: ` followed by the placeholder `replicas`. -/
def devTemplates : List (String × Tmpl) :=
  [("deployment.yaml.j2", [.text "replicas: ", .var "replicas"])]

/-- The scenario world: the configuration and template above, script
directory `/app`, empty filesystem. -/
def devWorld : World :=
  { config := some (.mapping devEnvs), templates := devTemplates,
    baseDir := ["app"], fs := ⟨[], []⟩ }

/-- The standard output of a successful default write run on `devWorld`. -/
def devOut : List String :=
  ["[INFO] Wrote rendered manifest to /app/build/deployment-dev.yaml",
   "[OK] Render finished."]

/-- The filesystem after a successful default write run on `devWorld`. -/
def devFS : FSState :=
  ⟨[["app"], ["app", "build"]],
   [(["app", "build", "deployment-dev.yaml"], "replicas: 2")]⟩

/-- A world whose filesystem already has a regular file at `/app/build`,
so creating the output directory must fail. -/
def conflictWorld : World :=
  { config := some (.mapping devEnvs), templates := devTemplates,
    baseDir := ["app"], fs := ⟨[], [(["app", "build"], "oops")]⟩ }

/-- A world whose `dev` section is `null` rather than a mapping. -/
def nullEnvWorld : World :=
  { config := some (.mapping [("dev", Yaml.null)]), templates := devTemplates,
    baseDir := ["app"], fs := ⟨[], []⟩ }

/-- The standard output of a successful run on `devWorld` with
`--outdir /abs/out`. -/
def absOut : List String :=
  ["[INFO] Wrote rendered manifest to /abs/out/deployment-dev.yaml",
   "[OK] Render finished."]

/-- The filesystem after a successful run on `devWorld` with
`--outdir /abs/out`. -/
def absFS : FSState :=
  ⟨[["abs"], ["abs", "out"]],
   [(["abs", "out", "deployment-dev.yaml"], "replicas: 2")]⟩

/-! Helper lemmas about the filesystem model. -/

lemma addDirs_cons (ds : List (List String)) (p : List String) (ps : List (List String)) :
    addDirs ds (p :: ps) = addDirs (if p ∈ ds then ds else ds ++ [p]) ps := rfl

lemma mem_addDirs {ds ps : List (List String)} {q : List String} :
    q ∈ addDirs ds ps ↔ q ∈ ds ∨ q ∈ ps := by
  induction ps generalizing ds with
  | nil => simp [addDirs]
  | cons p ps ih =>
    rw [addDirs_cons, ih]
    by_cases hp : p ∈ ds
    · rw [if_pos hp]
      simp only [List.mem_cons]
      constructor
      · tauto
      · rintro (h | rfl | h) <;> tauto
    · rw [if_neg hp]
      simp only [List.mem_append, List.mem_singleton, List.mem_cons]
      tauto

lemma addDirs_eq_of_subset {ds ps : List (List String)} (h : ∀ p ∈ ps, p ∈ ds) :
    addDirs ds ps = ds := by
  induction ps with
  | nil => rfl
  | cons p ps ih =>
    rw [addDirs_cons, if_pos (h p (List.mem_cons_self p ps))]
    exact ih (fun q hq => h q (List.mem_cons_of_mem _ hq))

lemma initSegs_length {p q : List String} (h : q ∈ initSegs p) : q.length ≤ p.length := by
  induction p generalizing q with
  | nil => simp [initSegs] at h
  | cons c rest ih =>
    simp only [initSegs, List.mem_cons, List.mem_map] at h
    rcases h with rfl | ⟨q', hq', rfl⟩
    · simp
    · simpa using ih hq'

lemma self_mem_initSegs {p : List String} (h : p ≠ []) : p ∈ initSegs p := by
  induction p with
  | nil => exact absurd rfl h
  | cons c rest ih =>
    cases rest with
    | nil => exact List.mem_singleton.mpr rfl
    | cons d rest' =>
      have hm : d :: rest' ∈ initSegs (d :: rest') := ih (by simp)
      exact List.mem_cons_of_mem _ (List.mem_map_of_mem (fun q => c :: q) hm)

lemma append_not_mem_initSegs (p : List String) (a : String) :
    p ++ [a] ∉ initSegs p := by
  intro h
  have := initSegs_length h
  simp at this

lemma alookup_setAssoc_self (l : List (List String × String)) (p : List String) (c : String) :
    alookup (setAssoc l p c) p = some c := by
  induction l with
  | nil => simp [setAssoc, alookup]
  | cons kv rest ih =>
    obtain ⟨q, d⟩ := kv
    by_cases hqp : q = p
    · subst hqp
      simp [setAssoc, alookup]
    · simp only [setAssoc, if_neg hqp, alookup]
      exact ih

lemma alookup_setAssoc_ne (l : List (List String × String)) (p q : List String) (c : String)
    (h : p ≠ q) : alookup (setAssoc l p c) q = alookup l q := by
  induction l with
  | nil =>
    simp only [setAssoc, alookup]
    rw [if_neg h]
  | cons kv rest ih =>
    obtain ⟨k, d⟩ := kv
    by_cases hkp : k = p
    · subst hkp
      simp only [setAssoc, if_pos rfl, alookup]
      rw [if_neg h, if_neg h]
    · simp only [setAssoc, if_neg hkp, alookup]
      by_cases hkq : k = q
      · rw [if_pos hkq, if_pos hkq]
      · rw [if_neg hkq, if_neg hkq]
        exact ih

lemma setAssoc_setAssoc (l : List (List String × String)) (p : List String) (c c' : String) :
    setAssoc (setAssoc l p c) p c' = setAssoc l p c' := by
  induction l with
  | nil => simp [setAssoc]
  | cons kv rest ih =>
    obtain ⟨k, d⟩ := kv
    by_cases hkp : k = p
    · subst hkp
      simp [setAssoc]
    · simp [setAssoc, if_neg hkp, ih]

/-! Characterisation of `write_build_file`. -/

lemma isDir_true_iff (fs : FSState) (p : List String) :
    isDir fs p = true ↔ (p = [] ∨ p ∈ fs.dirs) := by
  simp [isDir]

lemma mkdirParents_ok (fs : FSState) (p : List String)
    (h1 : (initSegs p).any (fun q => isFile fs q) = false) :
    mkdirParents fs p = .ok ⟨addDirs fs.dirs (initSegs p), fs.files⟩ := by
  simp [mkdirParents, h1]

lemma write_build_file_ok (env_name content : String) (outdir : List String) (fs : FSState)
    (h1 : (initSegs outdir).any (fun q => isFile fs q) = false)
    (h2 : (outdir ++ [outFileName env_name]) ∉ fs.dirs) :
    write_build_file env_name content outdir fs =
      .ok (⟨addDirs fs.dirs (initSegs outdir),
            setAssoc fs.files (outdir ++ [outFileName env_name]) content⟩,
           ["[INFO] Wrote rendered manifest to " ++ pathStr (outdir ++ [outFileName env_name])]) := by
  have hdirP : isDir ⟨addDirs fs.dirs (initSegs outdir), fs.files⟩
      (outdir ++ [outFileName env_name]) = false := by
    simp only [isDir, decide_eq_false_iff_not]
    rintro (hnil | hmem)
    · simp at hnil
    · rcases mem_addDirs.mp hmem with h | h
      · exact h2 h
      · exact append_not_mem_initSegs outdir _ h
  have hdirParent : isDir ⟨addDirs fs.dirs (initSegs outdir), fs.files⟩
      ((outdir ++ [outFileName env_name]).dropLast) = true := by
    rw [List.dropLast_concat]
    by_cases ho : outdir = []
    · simp [isDir, ho]
    · simp only [isDir, decide_eq_true_eq]
      exact Or.inr (mem_addDirs.mpr (Or.inr (self_mem_initSegs ho)))
  have hwt : write_text ⟨addDirs fs.dirs (initSegs outdir), fs.files⟩
      (outdir ++ [outFileName env_name]) content
      = .ok ⟨addDirs fs.dirs (initSegs outdir),
             setAssoc fs.files (outdir ++ [outFileName env_name]) content⟩ := by
    unfold write_text
    rw [hdirP, hdirParent]
    simp
  unfold write_build_file
  rw [mkdirParents_ok fs outdir h1]
  simp [hwt]

lemma write_build_file_err (env_name content : String) (outdir : List String) (fs : FSState)
    (h : (initSegs outdir).any (fun q => isFile fs q) = true
       ∨ (outdir ++ [outFileName env_name]) ∈ fs.dirs) :
    write_build_file env_name content outdir fs = .error .osError := by
  by_cases h1 : (initSegs outdir).any (fun q => isFile fs q) = true
  · simp [write_build_file, mkdirParents, h1]
  · have h2 : (outdir ++ [outFileName env_name]) ∈ fs.dirs := by
      rcases h with h | h
      · exact absurd h h1
      · exact h
    have h1' : (initSegs outdir).any (fun q => isFile fs q) = false :=
      Bool.not_eq_true _ ▸ h1
    have hdirP : isDir ⟨addDirs fs.dirs (initSegs outdir), fs.files⟩
        (outdir ++ [outFileName env_name]) = true := by
      simp only [isDir, decide_eq_true_eq]
      exact Or.inr (mem_addDirs.mpr (Or.inl h2))
    have hwt : write_text ⟨addDirs fs.dirs (initSegs outdir), fs.files⟩
        (outdir ++ [outFileName env_name]) content = .error .osError := by
      unfold write_text
      rw [hdirP]
      simp
    unfold write_build_file
    rw [mkdirParents_ok fs outdir h1']
    simp [hwt]

lemma write_build_file_inv (env_name content : String) (outdir : List String)
    (fs fs' : FSState) (lines : List String)
    (h : write_build_file env_name content outdir fs = .ok (fs', lines)) :
    (initSegs outdir).any (fun q => isFile fs q) = false
  ∧ (outdir ++ [outFileName env_name]) ∉ fs.dirs
  ∧ fs' = ⟨addDirs fs.dirs (initSegs outdir),
           setAssoc fs.files (outdir ++ [outFileName env_name]) content⟩
  ∧ lines = ["[INFO] Wrote rendered manifest to " ++ pathStr (outdir ++ [outFileName env_name])] := by
  by_cases h1 : (initSegs outdir).any (fun q => isFile fs q) = true
  · rw [write_build_file_err env_name content outdir fs (Or.inl h1)] at h
    exact Except.noConfusion h
  · have h1' : (initSegs outdir).any (fun q => isFile fs q) = false :=
      Bool.not_eq_true _ ▸ h1
    by_cases h2 : (outdir ++ [outFileName env_name]) ∈ fs.dirs
    · rw [write_build_file_err env_name content outdir fs (Or.inr h2)] at h
      exact Except.noConfusion h
    · rw [write_build_file_ok env_name content outdir fs h1' h2] at h
      injection h with h
      injection h with hfs hl
      exact ⟨h1', h2, hfs.symm, hl.symm⟩

/-! Characterisation of `main` on each control path. -/

lemma main_config_missing (args : Args) (w : World) (hc : w.config = none) :
    main args w = (.exited 1,
      ["[ERROR] Config file " ++ pathStr (w.baseDir ++ ["envs.yaml"]) ++ " not found."],
      w.fs) := by
  simp [main, load_env_config, hc]

lemma main_config_malformed (args : Args) (w : World)
    (hc : w.config = some .malformed) :
    main args w = (.crashed .yamlError, [], w.fs) := by
  simp [main, load_env_config, hc]

lemma main_env_absent (args : Args) (w : World) (d : ConfigDoc)
    (hc : w.config = some d) (hd : d ≠ .malformed)
    (he : alookup (allEnvsOf d) args.env = none) :
    main args w = (.exited 2,
      ["[ERROR] Environment \x27" ++ args.env ++ "\x27 not found in "
         ++ pathStr (w.baseDir ++ ["envs.yaml"]) ++ ".",
       "Available envs: " ++ String.intercalate ", " ((allEnvsOf d).map (fun kv => kv.1))],
      w.fs) := by
  cases d with
  | malformed => exact absurd rfl hd
  | emptyDoc => simp [main, load_env_config, hc, allEnvsOf] at he ⊢; simp [he]
  | mapping m => simp [main, load_env_config, hc, allEnvsOf] at he ⊢; simp [he]

lemma main_template_missing (args : Args) (w : World) (d : ConfigDoc) (ctx : Yaml)
    (hc : w.config = some d) (hd : d ≠ .malformed)
    (he : alookup (allEnvsOf d) args.env = some ctx)
    (ht : alookup w.templates args.template = none) :
    main args w = (.exited 3,
      ["[ERROR] Template " ++ args.template ++ " not found in "
         ++ pathStr (w.baseDir ++ ["templates"])],
      w.fs) := by
  cases d with
  | malformed => exact absurd rfl hd
  | emptyDoc => simp [allEnvsOf, alookup] at he
  | mapping m =>
    simp only [allEnvsOf] at he
    simp [main, load_env_config, render_template, allEnvsOf, hc, he, ht]

lemma main_ctx_not_map (args : Args) (w : World) (d : ConfigDoc) (ctx : Yaml) (t : Tmpl)
    (hc : w.config = some d) (hd : d ≠ .malformed)
    (he : alookup (allEnvsOf d) args.env = some ctx)
    (hctx : ∀ cm, ctx ≠ Yaml.map cm)
    (ht : alookup w.templates args.template = some t) :
    main args w = (.crashed .typeError, [], w.fs) := by
  cases d with
  | malformed => exact absurd rfl hd
  | emptyDoc => simp [allEnvsOf, alookup] at he
  | mapping m =>
    simp only [allEnvsOf] at he
    cases ctx with
    | map cm => exact absurd rfl (hctx cm)
    | null => simp [main, load_env_config, render_template, allEnvsOf, hc, he, ht]
    | bool b => simp [main, load_env_config, render_template, allEnvsOf, hc, he, ht]
    | int n => simp [main, load_env_config, render_template, allEnvsOf, hc, he, ht]
    | str s => simp [main, load_env_config, render_template, allEnvsOf, hc, he, ht]
    | list xs => simp [main, load_env_config, render_template, allEnvsOf, hc, he, ht]

lemma main_dryrun_ok (args : Args) (w : World) (d : ConfigDoc) (ctx : List (String × Yaml))
    (t : Tmpl)
    (hdry : args.dryRun = true)
    (hc : w.config = some d) (hd : d ≠ .malformed)
    (he : alookup (allEnvsOf d) args.env = some (.map ctx))
    (ht : alookup w.templates args.template = some t) :
    main args w = (.exited 0,
      ["[INFO] Dry run enabled. Rendering to stdout:\n", renderTmpl t ctx],
      w.fs) := by
  cases d with
  | malformed => exact absurd rfl hd
  | emptyDoc => simp [allEnvsOf, alookup] at he
  | mapping m =>
    simp only [allEnvsOf] at he
    simp [main, load_env_config, render_template, allEnvsOf, hc, he, ht, hdry]

lemma main_write_ok (args : Args) (w : World) (d : ConfigDoc) (ctx : List (String × Yaml))
    (t : Tmpl)
    (hdry : args.dryRun = false)
    (hc : w.config = some d) (hd : d ≠ .malformed)
    (he : alookup (allEnvsOf d) args.env = some (.map ctx))
    (ht : alookup w.templates args.template = some t)
    (h1 : (initSegs (outdirSegs w.baseDir args.outdir)).any (fun q => isFile w.fs q) = false)
    (h2 : (outdirSegs w.baseDir args.outdir ++ [outFileName args.env]) ∉ w.fs.dirs) :
    main args w = (.exited 0,
      ["[INFO] Wrote rendered manifest to "
         ++ pathStr (outdirSegs w.baseDir args.outdir ++ [outFileName args.env]),
       "[OK] Render finished."],
      ⟨addDirs w.fs.dirs (initSegs (outdirSegs w.baseDir args.outdir)),
       setAssoc w.fs.files (outdirSegs w.baseDir args.outdir ++ [outFileName args.env])
         (renderTmpl t ctx)⟩) := by
  cases d with
  | malformed => exact absurd rfl hd
  | emptyDoc => simp [allEnvsOf, alookup] at he
  | mapping m =>
    simp only [allEnvsOf] at he
    simp [main, load_env_config, render_template, allEnvsOf, hc, he, ht, hdry,
      write_build_file_ok args.env (renderTmpl t ctx) (outdirSegs w.baseDir args.outdir) w.fs h1 h2]

lemma main_write_err (args : Args) (w : World) (d : ConfigDoc) (ctx : List (String × Yaml))
    (t : Tmpl)
    (hdry : args.dryRun = false)
    (hc : w.config = some d) (hd : d ≠ .malformed)
    (he : alookup (allEnvsOf d) args.env = some (.map ctx))
    (ht : alookup w.templates args.template = some t)
    (hfail : (initSegs (outdirSegs w.baseDir args.outdir)).any (fun q => isFile w.fs q) = true
           ∨ (outdirSegs w.baseDir args.outdir ++ [outFileName args.env]) ∈ w.fs.dirs) :
    main args w = (.crashed .osError, [], w.fs) := by
  cases d with
  | malformed => exact absurd rfl hd
  | emptyDoc => simp [allEnvsOf, alookup] at he
  | mapping m =>
    simp only [allEnvsOf] at he
    simp [main, load_env_config, render_template, allEnvsOf, hc, he, ht, hdry,
      write_build_file_err args.env (renderTmpl t ctx) (outdirSegs w.baseDir args.outdir) w.fs hfail]

lemma main_dryrun_fs (args : Args) (w : World) (hdry : args.dryRun = true) :
    (main args w).2.2 = w.fs := by
  unfold main
  rcases hld : load_env_config args.env w.baseDir w.config with ⟨o, out⟩
  cases o with
  | exited c => simp
  | crashed e => simp
  | ok ctx =>
    rcases hrd : render_template args.template ctx w.templates w.baseDir with ⟨o2, out2⟩
    cases o2 with
    | exited c => simp [hrd]
    | crashed e => simp [hrd]
    | ok rendered => simp [hrd, hdry]

lemma main_write_exit0_inv (args : Args) (w : World) (out : List String) (fs2 : FSState)
    (hdry : args.dryRun = false)
    (h : main args w = (.exited 0, out, fs2)) :
    ∃ m ctx t, w.config = some (.mapping m)
      ∧ alookup m args.env = some (.map ctx)
      ∧ alookup w.templates args.template = some t
      ∧ write_build_file args.env (renderTmpl t ctx) (outdirSegs w.baseDir args.outdir) w.fs
          = .ok (fs2, ["[INFO] Wrote rendered manifest to "
              ++ pathStr (outdirSegs w.baseDir args.outdir ++ [outFileName args.env])])
      ∧ out = ["[INFO] Wrote rendered manifest to "
              ++ pathStr (outdirSegs w.baseDir args.outdir ++ [outFileName args.env]),
               "[OK] Render finished."] := by
  cases hcfg : w.config with
  | none => simp [main, load_env_config, hcfg] at h
  | some d =>
    cases d with
    | malformed => simp [main, load_env_config, hcfg] at h
    | emptyDoc => simp [main, load_env_config, allEnvsOf, alookup, hcfg] at h
    | mapping m =>
      cases hl : alookup m args.env with
      | none => simp [main, load_env_config, allEnvsOf, hcfg, hl] at h
      | some ctx =>
        cases ht : alookup w.templates args.template with
        | none =>
          simp [main, load_env_config, render_template, allEnvsOf, hcfg, hl, ht] at h
        | some t =>
          cases hctx : ctx with
          | map cm =>
            subst hctx
            cases hw : write_build_file args.env (renderTmpl t cm)
                (outdirSegs w.baseDir args.outdir) w.fs with
            | error e =>
              simp [main, load_env_config, render_template, allEnvsOf,
                hcfg, hl, ht, hdry, hw] at h
            | ok pr =>
              obtain ⟨fs', lines⟩ := pr
              obtain ⟨h1, h2, hfs, hlines⟩ := write_build_file_inv _ _ _ _ _ _ hw
              simp [main, load_env_config, render_template, allEnvsOf,
                hcfg, hl, ht, hdry, hw] at h
              obtain ⟨hout, hfs2⟩ := h
              refine ⟨m, cm, t, rfl, hl, rfl, ?_, ?_⟩
              · rw [hw, hlines, hfs2]
              · rw [← hout, hlines]
                simp
          | null =>
            subst hctx
            simp [main, load_env_config, render_template, allEnvsOf, hcfg, hl, ht] at h
          | bool b =>
            subst hctx
            simp [main, load_env_config, render_template, allEnvsOf, hcfg, hl, ht] at h
          | int n =>
            subst hctx
            simp [main, load_env_config, render_template, allEnvsOf, hcfg, hl, ht] at h
          | str s =>
            subst hctx
            simp [main, load_env_config, render_template, allEnvsOf, hcfg, hl, ht] at h
          | list xs =>
            subst hctx
            simp [main, load_env_config, render_template, allEnvsOf, hcfg, hl, ht] at h

/-! The claims. -/

/-- C1: for the configuration mapping dev to name svc-a and replicas 2 and
the template text `replicas: ` followed by the placeholder `replicas`,
invoking the program with `--env dev` renders exactly the text
`replicas: 2` and terminates with exit code 0 (the rendered text being
written to the default output file). -/
theorem C1_scenario_dev :
    render_template "deployment.yaml.j2"
        (.map [("name", .str "svc-a"), ("replicas", .int 2)]) devTemplates ["app"]
      = (.ok "replicas: 2", [])
  ∧ main { env := "dev" } devWorld = (.exited 0, devOut, devFS) :=
  ⟨rfl, rfl⟩

/-- C2: the process exit code is exactly 0 on success, 1 when the
configuration file does not exist, 2 when the requested environment is
absent from the loaded mapping, and 3 when the template identifier does
not resolve; each error kind maps to one fixed nonzero exit code. -/
theorem C2_exit_codes (args : Args) (w : World) :
    (w.config = none → (main args w).1 = .exited 1)
  ∧ (∀ m, w.config = some (.mapping m) → alookup m args.env = none →
      (main args w).1 = .exited 2)
  ∧ (∀ m ctx, w.config = some (.mapping m) → alookup m args.env = some ctx →
      alookup w.templates args.template = none → (main args w).1 = .exited 3)
  ∧ (∀ m ctx t, w.config = some (.mapping m) → alookup m args.env = some (.map ctx) →
      alookup w.templates args.template = some t →
      (args.dryRun = true ∨
        (args.dryRun = false
         ∧ (initSegs (outdirSegs w.baseDir args.outdir)).any (fun q => isFile w.fs q) = false
         ∧ (outdirSegs w.baseDir args.outdir ++ [outFileName args.env]) ∉ w.fs.dirs)) →
      (main args w).1 = .exited 0) := by
  refine ⟨?_, ?_, ?_, ?_⟩
  · intro hc
    rw [main_config_missing args w hc]
  · intro m hc he
    rw [main_env_absent args w (.mapping m) hc (fun hx => ConfigDoc.noConfusion hx)
      (by simpa [allEnvsOf] using he)]
  · intro m ctx hc he ht
    rw [main_template_missing args w (.mapping m) ctx hc (fun hx => ConfigDoc.noConfusion hx)
      (by simpa [allEnvsOf] using he) ht]
  · intro m ctx t hc he ht hs
    rcases hs with hdry | ⟨hdry, h1, h2⟩
    · rw [main_dryrun_ok args w (.mapping m) ctx t hdry hc (fun hx => ConfigDoc.noConfusion hx)
        (by simpa [allEnvsOf] using he) ht]
    · rw [main_write_ok args w (.mapping m) ctx t hdry hc (fun hx => ConfigDoc.noConfusion hx)
        (by simpa [allEnvsOf] using he) ht h1 h2]

/-- Witness for C2: all four exit codes exercised on concrete worlds. -/
theorem C2_exit_codes_witness :
    (main { env := "dev" } { devWorld with config := none }).1 = .exited 1
  ∧ (main { env := "prod" } devWorld).1 = .exited 2
  ∧ (main { env := "dev", template := "other.j2" } devWorld).1 = .exited 3
  ∧ (main { env := "dev", dryRun := true } devWorld).1 = .exited 0
  ∧ (main { env := "dev" } devWorld).1 = .exited 0 :=
  ⟨(C2_exit_codes { env := "dev" } { devWorld with config := none }).1 rfl,
   (C2_exit_codes { env := "prod" } devWorld).2.1 devEnvs rfl rfl,
   (C2_exit_codes { env := "dev", template := "other.j2" } devWorld).2.2.1 devEnvs
     (.map [("name", .str "svc-a"), ("replicas", .int 2)]) rfl rfl rfl,
   (C2_exit_codes { env := "dev", dryRun := true } devWorld).2.2.2 devEnvs
     [("name", .str "svc-a"), ("replicas", .int 2)] [.text "replicas: ", .var "replicas"]
     rfl rfl rfl (Or.inl rfl),
   (C2_exit_codes { env := "dev" } devWorld).2.2.2 devEnvs
     [("name", .str "svc-a"), ("replicas", .int 2)] [.text "replicas: ", .var "replicas"]
     rfl rfl rfl (Or.inr ⟨rfl, rfl, by decide⟩)⟩

/-- C3: for every environment name absent from the loaded mapping, the run
exits with code 2, the second diagnostic line enumerates every environment
name present in the mapping, and the filesystem is untouched (no partial
render is emitted). -/
theorem C3_env_absent (args : Args) (w : World) (m : List (String × Yaml))
    (hc : w.config = some (.mapping m)) (he : alookup m args.env = none) :
    main args w = (.exited 2,
      ["[ERROR] Environment \x27" ++ args.env ++ "\x27 not found in "
         ++ pathStr (w.baseDir ++ ["envs.yaml"]) ++ ".",
       "Available envs: " ++ String.intercalate ", " (m.map (fun kv => kv.1))],
      w.fs) := by
  have h := main_env_absent args w (.mapping m) hc (fun hx => ConfigDoc.noConfusion hx)
    (by simpa [allEnvsOf] using he)
  simpa [allEnvsOf] using h

/-- Witness for C3: requesting `prod` when only `dev` exists. -/
theorem C3_env_absent_witness :
    main { env := "prod" } devWorld = (.exited 2,
      ["[ERROR] Environment \x27prod\x27 not found in /app/envs.yaml.",
       "Available envs: dev"],
      devWorld.fs) :=
  C3_env_absent { env := "prod" } devWorld devEnvs rfl rfl

/-- C4: in dry-run mode the program never touches the filesystem; in write
mode a successful run stores the rendered content at exactly
`<outdir>/deployment-<env>.yaml`, leaves every other path unchanged, and
creates the output directory with all its missing ancestors. -/
theorem C4_output_sink_frame (args : Args) (w : World) :
    (args.dryRun = true → (main args w).2.2 = w.fs)
  ∧ (∀ out fs2, args.dryRun = false → main args w = (.exited 0, out, fs2) →
      ∃ content,
        fs2.files = setAssoc w.fs.files
          (outdirSegs w.baseDir args.outdir ++ [outFileName args.env]) content
      ∧ alookup fs2.files (outdirSegs w.baseDir args.outdir ++ [outFileName args.env])
          = some content
      ∧ (∀ q, q ≠ outdirSegs w.baseDir args.outdir ++ [outFileName args.env] →
          alookup fs2.files q = alookup w.fs.files q)
      ∧ ∀ q ∈ initSegs (outdirSegs w.baseDir args.outdir), isDir fs2 q = true) := by
  constructor
  · exact main_dryrun_fs args w
  · intro out fs2 hdry h
    obtain ⟨m, ctx, t, hc, he, ht, hw, hout⟩ := main_write_exit0_inv args w out fs2 hdry h
    obtain ⟨h1, h2, hfs, -⟩ := write_build_file_inv _ _ _ _ _ _ hw
    refine ⟨renderTmpl t ctx, ?_, ?_, ?_, ?_⟩
    · rw [hfs]
    · rw [hfs]
      exact alookup_setAssoc_self _ _ _
    · intro q hq
      rw [hfs]
      exact alookup_setAssoc_ne _ _ _ _ (fun hx => hq hx.symm)
    · intro q hq
      rw [hfs]
      simp only [isDir, decide_eq_true_eq]
      exact Or.inr (mem_addDirs.mpr (Or.inr hq))

/-- Witness for C4: the dry-run frame and the write-mode file layout on
the scenario world. -/
theorem C4_output_sink_frame_witness :
    (main { env := "dev", dryRun := true } devWorld).2.2 = devWorld.fs
  ∧ ∃ content,
      devFS.files = setAssoc devWorld.fs.files
        (outdirSegs devWorld.baseDir "build" ++ [outFileName "dev"]) content
    ∧ alookup devFS.files (outdirSegs devWorld.baseDir "build" ++ [outFileName "dev"])
        = some content
    ∧ (∀ q, q ≠ outdirSegs devWorld.baseDir "build" ++ [outFileName "dev"] →
        alookup devFS.files q = alookup devWorld.fs.files q)
    ∧ ∀ q ∈ initSegs (outdirSegs devWorld.baseDir "build"), isDir devFS q = true :=
  ⟨(C4_output_sink_frame { env := "dev", dryRun := true } devWorld).1 rfl,
   (C4_output_sink_frame { env := "dev" } devWorld).2 devOut devFS rfl rfl⟩

/-- C5: running the write-mode pipeline a second time with identical
configuration, template and arguments overwrites the output file with
byte-identical contents and leaves no additional files: the final
filesystem and standard output equal those of the first run. -/
theorem C5_write_idempotent (args : Args) (w : World) (out : List String) (fs1 : FSState)
    (hdry : args.dryRun = false)
    (h : main args w = (.exited 0, out, fs1)) :
    main args { w with fs := fs1 } = (.exited 0, out, fs1) := by
  obtain ⟨m, ctx, t, hc, he, ht, hw, hout⟩ := main_write_exit0_inv args w out fs1 hdry h
  obtain ⟨h1, h2, hfs, -⟩ := write_build_file_inv _ _ _ _ _ _ hw
  have hanyw : ∀ q ∈ initSegs (outdirSegs w.baseDir args.outdir), isFile w.fs q = false := by
    rw [List.any_eq_false] at h1
    intro q hq
    simpa using h1 q hq
  have h1' : (initSegs (outdirSegs w.baseDir args.outdir)).any (fun q => isFile fs1 q) = false := by
    rw [List.any_eq_false]
    intro q hq
    have hne : (outdirSegs w.baseDir args.outdir ++ [outFileName args.env]) ≠ q := by
      intro hx
      rw [← hx] at hq
      exact append_not_mem_initSegs _ _ hq
    have hlk : alookup fs1.files q = alookup w.fs.files q := by
      rw [hfs]
      exact alookup_setAssoc_ne _ _ _ _ hne
    have : isFile fs1 q = isFile w.fs q := by simp [isFile, hlk]
    rw [this]
    simpa using hanyw q hq
  have h2' : (outdirSegs w.baseDir args.outdir ++ [outFileName args.env]) ∉ fs1.dirs := by
    rw [hfs]
    intro hmem
    rcases mem_addDirs.mp hmem with hx | hx
    · exact h2 hx
    · exact append_not_mem_initSegs _ _ hx
  have hfseq : (⟨addDirs fs1.dirs (initSegs (outdirSegs w.baseDir args.outdir)),
      setAssoc fs1.files (outdirSegs w.baseDir args.outdir ++ [outFileName args.env])
        (renderTmpl t ctx)⟩ : FSState) = fs1 := by
    rw [hfs]
    have hd : addDirs (addDirs w.fs.dirs (initSegs (outdirSegs w.baseDir args.outdir)))
        (initSegs (outdirSegs w.baseDir args.outdir))
        = addDirs w.fs.dirs (initSegs (outdirSegs w.baseDir args.outdir)) :=
      addDirs_eq_of_subset (fun p hp => mem_addDirs.mpr (Or.inr hp))
    simp [hd, setAssoc_setAssoc]
  rw [main_write_ok args { w with fs := fs1 } (.mapping m) ctx t hdry hc
    (fun hx => ConfigDoc.noConfusion hx) (by simpa [allEnvsOf] using he) ht h1' h2', hout]
  dsimp only
  rw [hfseq]

/-- Witness for C5: a second run on the scenario world from the first
run's final filesystem reproduces it exactly. -/
theorem C5_write_idempotent_witness :
    main { env := "dev" } { devWorld with fs := devFS } = (.exited 0, devOut, devFS) :=
  C5_write_idempotent { env := "dev" } devWorld devOut devFS rfl rfl

/-- C6: a malformed configuration document makes the loader fail with the
parse error (the uncaught YAML parse exception), an empty document is
instead tolerated as an empty registry (it behaves exactly like an empty
mapping), and no document other than a malformed one ever produces the
parse failure, so malformed input is distinguished from a legitimately
empty file. -/
theorem C6_parse_error (env_name : String) (baseDir : List String) :
    (load_env_config env_name baseDir (some .malformed)).1 = .crashed .yamlError
  ∧ load_env_config env_name baseDir (some .emptyDoc)
      = load_env_config env_name baseDir (some (.mapping []))
  ∧ ∀ d, d ≠ ConfigDoc.malformed →
      (load_env_config env_name baseDir (some d)).1 ≠ .crashed .yamlError := by
  refine ⟨rfl, rfl, ?_⟩
  intro d hd
  cases d with
  | malformed => exact absurd rfl hd
  | emptyDoc => simp [load_env_config, allEnvsOf, alookup]
  | mapping m =>
    cases hl : alookup m env_name with
    | none => simp [load_env_config, allEnvsOf, hl]
    | some s => simp [load_env_config, allEnvsOf, hl]

/-- Witness for C6: an empty document does not produce the parse failure. -/
theorem C6_parse_error_witness :
    (load_env_config "dev" ["app"] (some .emptyDoc)).1 ≠ .crashed .yamlError :=
  (C6_parse_error "dev" ["app"]).2.2 .emptyDoc (fun hx => ConfigDoc.noConfusion hx)

/-- C7: when directory creation or the file write fails (an ancestor of the
output directory, or the output path itself, conflicts with an existing
entry of the wrong kind), the error is unhandled: the run ends in an
uncaught fault with nothing printed and the filesystem untouched, and its
result is not `sys.exit` with any fixed exit code. -/
theorem C7_write_failure_uncaught (args : Args) (w : World) (m : List (String × Yaml))
    (ctx : List (String × Yaml)) (t : Tmpl)
    (hdry : args.dryRun = false)
    (hc : w.config = some (.mapping m))
    (he : alookup m args.env = some (.map ctx))
    (ht : alookup w.templates args.template = some t)
    (hfail : (initSegs (outdirSegs w.baseDir args.outdir)).any (fun q => isFile w.fs q) = true
           ∨ (outdirSegs w.baseDir args.outdir ++ [outFileName args.env]) ∈ w.fs.dirs) :
    main args w = (.crashed .osError, [], w.fs)
  ∧ ∀ c, (main args w).1 ≠ RunResult.exited c := by
  have hm := main_write_err args w (.mapping m) ctx t hdry hc
    (fun hx => ConfigDoc.noConfusion hx) (by simpa [allEnvsOf] using he) ht hfail
  refine ⟨hm, ?_⟩
  intro c
  rw [hm]
  simp

/-- Witness for C7: a regular file already sits at `/app/build`. -/
theorem C7_write_failure_uncaught_witness :
    main { env := "dev" } conflictWorld = (.crashed .osError, [], conflictWorld.fs)
  ∧ ∀ c, (main { env := "dev" } conflictWorld).1 ≠ RunResult.exited c :=
  C7_write_failure_uncaught { env := "dev" } conflictWorld devEnvs
    [("name", .str "svc-a"), ("replicas", .int 2)] [.text "replicas: ", .var "replicas"]
    rfl rfl rfl rfl (Or.inl rfl)

/-- C8: each recognized error (missing configuration file, unknown
environment, missing template) prints its diagnostic on the standard
output stream with the severity tag `[ERROR]` as prefix, terminates
immediately with the fixed exit code of that error kind, and makes no
retry: the filesystem is untouched and nothing else is printed. -/
theorem C8_diagnostics (args : Args) (w : World) :
    (w.config = none →
       main args w = (.exited 1,
         ["[ERROR] Config file " ++ pathStr (w.baseDir ++ ["envs.yaml"]) ++ " not found."],
         w.fs)
       ∧ ∃ rest, "[ERROR] Config file " ++ pathStr (w.baseDir ++ ["envs.yaml"]) ++ " not found."
           = "[ERROR]" ++ rest)
  ∧ (∀ m, w.config = some (.mapping m) → alookup m args.env = none →
       ∃ l1 l2 rest, main args w = (.exited 2, [l1, l2], w.fs) ∧ l1 = "[ERROR]" ++ rest)
  ∧ (∀ m ctx, w.config = some (.mapping m) → alookup m args.env = some ctx →
       alookup w.templates args.template = none →
       ∃ l rest, main args w = (.exited 3, [l], w.fs) ∧ l = "[ERROR]" ++ rest) := by
  refine ⟨?_, ?_, ?_⟩
  · intro hc
    refine ⟨main_config_missing args w hc,
      " Config file " ++ (pathStr (w.baseDir ++ ["envs.yaml"]) ++ " not found."), ?_⟩
    rw [show ("[ERROR] Config file " : String) = "[ERROR]" ++ " Config file " from rfl]
    simp only [String.append_assoc]
  · intro m hc he
    have h := main_env_absent args w (.mapping m) hc (fun hx => ConfigDoc.noConfusion hx)
      (by simpa [allEnvsOf] using he)
    refine ⟨"[ERROR] Environment \x27" ++ args.env ++ "\x27 not found in "
        ++ pathStr (w.baseDir ++ ["envs.yaml"]) ++ ".",
      "Available envs: " ++ String.intercalate ", " (m.map (fun kv => kv.1)),
      " Environment \x27" ++ (args.env ++ ("\x27 not found in "
        ++ (pathStr (w.baseDir ++ ["envs.yaml"]) ++ "."))),
      by simpa [allEnvsOf] using h, ?_⟩
    rw [show ("[ERROR] Environment \x27" : String) = "[ERROR]" ++ " Environment \x27" from rfl]
    simp only [String.append_assoc]
  · intro m ctx hc he ht
    have h := main_template_missing args w (.mapping m) ctx hc
      (fun hx => ConfigDoc.noConfusion hx) (by simpa [allEnvsOf] using he) ht
    refine ⟨"[ERROR] Template " ++ args.template ++ " not found in "
        ++ pathStr (w.baseDir ++ ["templates"]),
      " Template " ++ (args.template ++ (" not found in "
        ++ pathStr (w.baseDir ++ ["templates"]))),
      h, ?_⟩
    rw [show ("[ERROR] Template " : String) = "[ERROR]" ++ " Template " from rfl]
    simp only [String.append_assoc]

/-- Witness for C8: the three recognized errors on concrete worlds. -/
theorem C8_diagnostics_witness :
    (main { env := "dev" } { devWorld with config := none }
        = (.exited 1, ["[ERROR] Config file /app/envs.yaml not found."], devWorld.fs)
      ∧ ∃ rest, "[ERROR] Config file " ++ pathStr (["app"] ++ ["envs.yaml"]) ++ " not found."
          = "[ERROR]" ++ rest)
  ∧ (∃ l1 l2 rest, main { env := "prod" } devWorld = (.exited 2, [l1, l2], devWorld.fs)
      ∧ l1 = "[ERROR]" ++ rest)
  ∧ (∃ l rest, main { env := "dev", template := "other.j2" } devWorld
      = (.exited 3, [l], devWorld.fs) ∧ l = "[ERROR]" ++ rest) :=
  ⟨(C8_diagnostics { env := "dev" } { devWorld with config := none }).1 rfl,
   (C8_diagnostics { env := "prod" } devWorld).2.1 devEnvs rfl rfl,
   (C8_diagnostics { env := "dev", template := "other.j2" } devWorld).2.2 devEnvs
     (.map [("name", .str "svc-a"), ("replicas", .int 2)]) rfl rfl rfl⟩

/-- C9: when the selected environment section is not a mapping (null, a
scalar, or a list), `load_env_config` still returns it unvalidated, and
the keyword expansion in `render_template` raises an uncaught `TypeError`:
the run crashes outside the exit-code contract. -/
theorem C9_nonmapping_context (args : Args) (w : World) (m : List (String × Yaml))
    (ctx : Yaml) (t : Tmpl)
    (hc : w.config = some (.mapping m))
    (he : alookup m args.env = some ctx)
    (hctx : ∀ cm, ctx ≠ Yaml.map cm)
    (ht : alookup w.templates args.template = some t) :
    (load_env_config args.env w.baseDir w.config).1 = .ok ctx
  ∧ main args w = (.crashed .typeError, [], w.fs)
  ∧ ∀ c, (main args w).1 ≠ RunResult.exited c := by
  have h1 : (load_env_config args.env w.baseDir w.config).1 = .ok ctx := by
    simp [load_env_config, hc, allEnvsOf, he]
  have h2 := main_ctx_not_map args w (.mapping m) ctx t hc
    (fun hx => ConfigDoc.noConfusion hx) (by simpa [allEnvsOf] using he) hctx ht
  refine ⟨h1, h2, ?_⟩
  intro c
  rw [h2]
  simp

/-- Witness for C9: the `dev` section is `null`. -/
theorem C9_nonmapping_context_witness :
    (load_env_config "dev" ["app"] nullEnvWorld.config).1 = .ok Yaml.null
  ∧ main { env := "dev" } nullEnvWorld = (.crashed .typeError, [], nullEnvWorld.fs)
  ∧ ∀ c, (main { env := "dev" } nullEnvWorld).1 ≠ RunResult.exited c :=
  C9_nonmapping_context { env := "dev" } nullEnvWorld [("dev", Yaml.null)] Yaml.null
    [.text "replicas: ", .var "replicas"] rfl rfl (fun _ h => Yaml.noConfusion h) rfl

/-- C10: an absolute `--outdir` survives the join with the script directory
unchanged, so the output file of a successful write run sits at
`<absolute-outdir>/deployment-<env>.yaml`; a relative `--outdir` is
anchored to the script directory by concatenation. -/
theorem C10_absolute_outdir (args : Args) (w : World) :
    ((parsePath args.outdir).absolute = true →
        joinPath ⟨true, w.baseDir⟩ (parsePath args.outdir) = parsePath args.outdir
      ∧ outdirSegs w.baseDir args.outdir = normAux [] (parsePath args.outdir).segs
      ∧ (∀ out fs2, args.dryRun = false → main args w = (.exited 0, out, fs2) →
          ∃ content, alookup fs2.files
              (normAux [] (parsePath args.outdir).segs ++ [outFileName args.env])
            = some content))
  ∧ ((parsePath args.outdir).absolute = false →
        (joinPath ⟨true, w.baseDir⟩ (parsePath args.outdir)).segs
          = w.baseDir ++ (parsePath args.outdir).segs) := by
  constructor
  · intro habs
    have hj : joinPath ⟨true, w.baseDir⟩ (parsePath args.outdir) = parsePath args.outdir := by
      simp [joinPath, habs]
    have hseg : outdirSegs w.baseDir args.outdir = normAux [] (parsePath args.outdir).segs := by
      simp [outdirSegs, resolveSegs, hj]
    refine ⟨hj, hseg, ?_⟩
    intro out fs2 hdry h
    obtain ⟨m, ctx, t, hc, he, ht, hw, hout⟩ := main_write_exit0_inv args w out fs2 hdry h
    obtain ⟨h1, h2, hfs, -⟩ := write_build_file_inv _ _ _ _ _ _ hw
    refine ⟨renderTmpl t ctx, ?_⟩
    rw [← hseg, hfs]
    exact alookup_setAssoc_self _ _ _
  · intro hrel
    simp [joinPath, hrel]

/-- Witness for C10: the absolute path `/abs/out` and the relative path
`build` against the script directory `/app`. -/
theorem C10_absolute_outdir_witness :
    (joinPath ⟨true, ["app"]⟩ (parsePath "/abs/out") = parsePath "/abs/out")
  ∧ (outdirSegs ["app"] "/abs/out" = normAux [] (parsePath "/abs/out").segs)
  ∧ (∃ content, alookup absFS.files
        (normAux [] (parsePath "/abs/out").segs ++ [outFileName "dev"]) = some content)
  ∧ ((joinPath ⟨true, ["app"]⟩ (parsePath "build")).segs
      = ["app"] ++ (parsePath "build").segs) := by
  have h := (C10_absolute_outdir { env := "dev", outdir := "/abs/out" } devWorld).1 rfl
  exact ⟨h.1, h.2.1, h.2.2 absOut absFS rfl rfl,
    (C10_absolute_outdir { env := "dev", outdir := "build" } devWorld).2 rfl⟩

end ManifestRender
